import Mathlib

/-!
Shallow embedding of the billing and insights services of a three-phase
power monitoring backend.

JavaScript numbers are modelled as rationals (ℚ) in the billing engine,
where every computation stays finite, and as an explicit `JsNum` type
(finite rational, positive or negative infinity, or NaN) in the insights
engine, whose divisions can produce infinities and NaN at zero
denominators.  `parseFloat(x.toFixed(2))` is modelled as rounding to the
nearest multiple of 1/100 (ties rounding up).  Calendar dates are
modelled as integer day indices, with the ambient clock passed in as an
explicit `today` parameter.
-/

namespace PowerBackend

/-- Model of `parseFloat(x.toFixed(2))`: round to 2 decimal places. -/
def toFixed2 (q : ℚ) : ℚ := (round (q * 100) : ℚ) / 100

/-- Model of the JavaScript idiom `field || dflt` applied to an optional
numeric request field: a missing field or a supplied 0 (falsy) both give
the default. -/
def jsOr (o : Option ℚ) (dflt : ℚ) : ℚ :=
  match o with
  | none => dflt
  | some q => if q = 0 then dflt else q

/-- One entry of a bill breakdown (interface `SlabBreakdown`). -/
structure SlabBreakdown where
  slab : String
  units : ℚ
  rate : ℚ
  amount : ℚ
deriving DecidableEq, Repr, Inhabited

/-- One daily-cost entry (interface `DailyCost`); the date is a day index. -/
structure DailyCost where
  date : ℤ
  cost : ℚ
deriving DecidableEq, Repr, Inhabited

/-- Interface `BillCalculationRequest`.  The connection category is kept
as a raw string because the dispatch in `calculateBill` has a default
branch for unrecognized values. -/
structure BillCalculationRequest where
  totalEnergy : ℚ
  deviceId : String
  connectionCategory : String
  billingPeriod : String
  maxDemandKVA : Option ℚ
  averagePowerFactor : Option ℚ
deriving DecidableEq, Repr

/-- Interface `BillCalculationResponse`. -/
structure BillCalculationResponse where
  totalAmount : ℚ
  category : String
  breakdown : List SlabBreakdown
  fixedCharges : ℚ
  demandCharges : ℚ
  powerFactorAdjustment : ℚ
  maxDemandKVA : ℚ
  powerFactor : ℚ
  dailyCosts : List DailyCost
deriving DecidableEq, Repr, Inhabited

/-- One row of the domestic tariff slab table; `limit = none` encodes the
`Infinity` width of the last slab. -/
structure TariffSlab where
  name : String
  limit : Option ℚ
  rate : ℚ
deriving DecidableEq, Repr

/-- The Sri Lankan CEB domestic 3-phase slab table (2024 rates) from
`calculateDomestic3Phase`. -/
def domesticSlabs : List TariffSlab :=
  [ { name := "0-30 kWh", limit := some 30, rate := 7.85 },
    { name := "31-60 kWh", limit := some 30, rate := 15.00 },
    { name := "61-90 kWh", limit := some 30, rate := 20.00 },
    { name := "91-120 kWh", limit := some 30, rate := 30.00 },
    { name := "121-180 kWh", limit := some 60, rate := 42.00 },
    { name := "181+ kWh", limit := none, rate := 50.00 } ]

/-- The slab-consumption loop of `calculateDomestic3Phase`: walks the
slab list while energy remains, pushing one breakdown entry per visited
slab and accumulating the unrounded energy charge.  Returns the
breakdown list and the unrounded energy charge. -/
def runSlabs : ℚ → List TariffSlab → List SlabBreakdown × ℚ
  | _, [] => ([], 0)
  | remaining, s :: rest =>
    if remaining ≤ 0 then ([], 0)
    else
      let unitsInSlab :=
        match s.limit with
        | none => remaining
        | some li => min remaining li
      let amount := unitsInSlab * s.rate
      let next := runSlabs (remaining - unitsInSlab) rest
      ({ slab := s.name, units := toFixed2 unitsInSlab,
         rate := s.rate, amount := toFixed2 amount } :: next.1,
       amount + next.2)

/-- Result record of `calculateDomestic3Phase`. -/
structure DomesticResult where
  breakdown : List SlabBreakdown
  fixedCharge : ℚ
  totalAmount : ℚ
deriving DecidableEq, Repr

/-- DOMESTIC - 3 PHASE tariff calculation: slab-based rates with a fixed
monthly charge that is a step function of consumption; no demand charge,
no power-factor adjustment.  `totalAmount` is the unrounded sum. -/
def calculateDomestic3Phase (totalEnergyKWh : ℚ) : DomesticResult :=
  let r := runSlabs totalEnergyKWh domesticSlabs
  let fixedCharge : ℚ :=
    if totalEnergyKWh ≤ 60 then 150
    else if totalEnergyKWh ≤ 90 then 350
    else if totalEnergyKWh ≤ 120 then 600
    else if totalEnergyKWh ≤ 180 then 750
    else 1000
  { breakdown := r.1, fixedCharge := fixedCharge, totalAmount := r.2 + fixedCharge }

/-- Result record of the general-purpose and industrial calculations. -/
structure DemandTariffResult where
  breakdown : List SlabBreakdown
  fixedCharge : ℚ
  demandCharges : ℚ
  pfAdjustment : ℚ
  totalAmount : ℚ
deriving DecidableEq, Repr

/-- GENERAL PURPOSE - 3 PHASE tariff calculation: flat energy rate,
fixed charge, maximum-demand charge, and a power-factor penalty (only)
below 0.85. -/
def calculateGeneralPurpose3Phase (totalEnergyKWh maxDemandKVA powerFactor : ℚ) :
    DemandTariffResult :=
  let energyRate : ℚ := 28.50
  let energyCharge := totalEnergyKWh * energyRate
  let breakdown : List SlabBreakdown :=
    [ { slab := "General Purpose Rate", units := toFixed2 totalEnergyKWh,
        rate := energyRate, amount := toFixed2 energyCharge } ]
  let fixedCharge : ℚ := 500
  let demandRate : ℚ := 450
  let demandCharges := maxDemandKVA * demandRate
  let pfAdjustment : ℚ :=
    if powerFactor < 0.85 then
      let pfDeficit := 0.85 - powerFactor
      let penaltyPercent := pfDeficit * 100
      (energyCharge + demandCharges) * (penaltyPercent / 100)
    else 0
  let totalAmount := energyCharge + fixedCharge + demandCharges + pfAdjustment
  { breakdown := breakdown, fixedCharge := fixedCharge,
    demandCharges := demandCharges, pfAdjustment := pfAdjustment,
    totalAmount := totalAmount }

/-- INDUSTRIAL - 3 PHASE tariff calculation: flat energy rate, fixed
charge, mandatory maximum-demand charge, and a two-sided power-factor
adjustment (penalty below 0.85, incentive above 0.90). -/
def calculateIndustrial3Phase (totalEnergyKWh maxDemandKVA powerFactor : ℚ) :
    DemandTariffResult :=
  let energyRate : ℚ := 24.50
  let energyCharge := totalEnergyKWh * energyRate
  let breakdown : List SlabBreakdown :=
    [ { slab := "Industrial Rate", units := toFixed2 totalEnergyKWh,
        rate := energyRate, amount := toFixed2 energyCharge } ]
  let fixedCharge : ℚ := 1500
  let demandRate : ℚ := 550
  let demandCharges := maxDemandKVA * demandRate
  let pfAdjustment : ℚ :=
    if powerFactor < 0.85 then
      let pfDeficit := 0.85 - powerFactor
      let penaltyPercent := pfDeficit * 150
      (energyCharge + demandCharges) * (penaltyPercent / 100)
    else if 0.90 < powerFactor then
      let pfBonus := powerFactor - 0.90
      let discountPercent := pfBonus * 50;
      -((energyCharge + demandCharges) * (discountPercent / 100))
    else 0
  let totalAmount := energyCharge + fixedCharge + demandCharges + pfAdjustment
  { breakdown := breakdown, fixedCharge := fixedCharge,
    demandCharges := demandCharges, pfAdjustment := pfAdjustment,
    totalAmount := totalAmount }

/-- `generateDailyCosts`: distributes the (unrounded) total evenly over
a fixed 30-day window ending `today`; each entry carries the same
2-decimal rounded cost.  `today` replaces the ambient `new Date()`. -/
def generateDailyCosts (today : ℤ) (totalEnergyKWh totalAmount : ℚ) : List DailyCost :=
  let daysInMonth : ℕ := 30
  let _dailyEnergy := totalEnergyKWh / 30
  let dailyCost := totalAmount / 30
  (List.range daysInMonth).map fun (i : ℕ) =>
    { date := today - ((29 : ℤ) - (i : ℤ)), cost := toFixed2 dailyCost }

/-- `calculateBill`: dispatch on the connection category string; the only
failure is the default branch for an unrecognized category. -/
def calculateBill (today : ℤ) (request : BillCalculationRequest) :
    Except String BillCalculationResponse :=
  let totalEnergyKWh := request.totalEnergy
  let maxDemandKVA := jsOr request.maxDemandKVA 0
  let powerFactor := jsOr request.averagePowerFactor 0.90
  if request.connectionCategory = "domestic-3phase" then
    let result := calculateDomestic3Phase totalEnergyKWh
    Except.ok
      { totalAmount := toFixed2 result.totalAmount
        category := request.connectionCategory
        breakdown := result.breakdown
        fixedCharges := result.fixedCharge
        demandCharges := 0
        powerFactorAdjustment := 0
        maxDemandKVA := 0
        powerFactor := powerFactor
        dailyCosts := generateDailyCosts today totalEnergyKWh result.totalAmount }
  else if request.connectionCategory = "general-purpose-3phase" then
    let result := calculateGeneralPurpose3Phase totalEnergyKWh maxDemandKVA powerFactor
    Except.ok
      { totalAmount := toFixed2 result.totalAmount
        category := request.connectionCategory
        breakdown := result.breakdown
        fixedCharges := result.fixedCharge
        demandCharges := toFixed2 result.demandCharges
        powerFactorAdjustment := toFixed2 result.pfAdjustment
        maxDemandKVA := toFixed2 maxDemandKVA
        powerFactor := powerFactor
        dailyCosts := generateDailyCosts today totalEnergyKWh result.totalAmount }
  else if request.connectionCategory = "industrial-3phase" then
    let result := calculateIndustrial3Phase totalEnergyKWh maxDemandKVA powerFactor
    Except.ok
      { totalAmount := toFixed2 result.totalAmount
        category := request.connectionCategory
        breakdown := result.breakdown
        fixedCharges := result.fixedCharge
        demandCharges := toFixed2 result.demandCharges
        powerFactorAdjustment := toFixed2 result.pfAdjustment
        maxDemandKVA := toFixed2 maxDemandKVA
        powerFactor := powerFactor
        dailyCosts := generateDailyCosts today totalEnergyKWh result.totalAmount }
  else
    Except.error "Invalid connection category"

/-! ### JavaScript number model for the insights engine

The insights service divides by statistics that may be zero, so its
arithmetic is modelled on a type with IEEE-style infinities and NaN
(zero denominators are treated as positive zero, the only zero of the
model). -/

/-- A JavaScript number: a finite rational, an infinity, or NaN. -/
inductive JsNum where
  | num (q : ℚ)
  | posInf
  | negInf
  | nan
deriving DecidableEq, Repr

/-- JavaScript negation. -/
def jsNeg : JsNum → JsNum
  | .num q => .num (-q)
  | .posInf => .negInf
  | .negInf => .posInf
  | .nan => .nan

/-- JavaScript addition. -/
def jsAdd : JsNum → JsNum → JsNum
  | .nan, _ => .nan
  | _, .nan => .nan
  | .num p, .num q => .num (p + q)
  | .posInf, .negInf => .nan
  | .negInf, .posInf => .nan
  | .posInf, _ => .posInf
  | _, .posInf => .posInf
  | .negInf, _ => .negInf
  | _, .negInf => .negInf

/-- JavaScript subtraction, `a - b = a + (-b)`. -/
def jsSub (a b : JsNum) : JsNum := jsAdd a (jsNeg b)

/-- JavaScript multiplication. -/
def jsMul : JsNum → JsNum → JsNum
  | .nan, _ => .nan
  | _, .nan => .nan
  | .num p, .num q => .num (p * q)
  | .posInf, .num q => if q = 0 then .nan else if 0 < q then .posInf else .negInf
  | .num p, .posInf => if p = 0 then .nan else if 0 < p then .posInf else .negInf
  | .negInf, .num q => if q = 0 then .nan else if 0 < q then .negInf else .posInf
  | .num p, .negInf => if p = 0 then .nan else if 0 < p then .negInf else .posInf
  | .posInf, .posInf => .posInf
  | .negInf, .negInf => .posInf
  | .posInf, .negInf => .negInf
  | .negInf, .posInf => .negInf

/-- JavaScript division; a zero denominator is positive zero, so
`x / 0` is an infinity for `x ≠ 0` and NaN for `x = 0`. -/
def jsDiv : JsNum → JsNum → JsNum
  | .nan, _ => .nan
  | _, .nan => .nan
  | .num p, .num q =>
      if q = 0 then (if p = 0 then .nan else if 0 < p then .posInf else .negInf)
      else .num (p / q)
  | .num _, .posInf => .num 0
  | .num _, .negInf => .num 0
  | .posInf, .num q => if q < 0 then .negInf else .posInf
  | .negInf, .num q => if q < 0 then .posInf else .negInf
  | .posInf, .posInf => .nan
  | .posInf, .negInf => .nan
  | .negInf, .posInf => .nan
  | .negInf, .negInf => .nan

/-- `Math.abs`. -/
def jsAbs : JsNum → JsNum
  | .num q => .num |q|
  | .nan => .nan
  | _ => .posInf

/-- JavaScript `<`; every comparison with NaN is false. -/
def jsLt : JsNum → JsNum → Bool
  | .nan, _ => false
  | _, .nan => false
  | .num p, .num q => decide (p < q)
  | .num _, .posInf => true
  | .num _, .negInf => false
  | .posInf, _ => false
  | .negInf, .negInf => false
  | .negInf, _ => true

/-- JavaScript `>`. -/
def jsGt (a b : JsNum) : Bool := jsLt b a

/-- `Math.max` of two arguments; NaN-propagating. -/
def jsMax (a b : JsNum) : JsNum :=
  match a, b with
  | .nan, _ => .nan
  | _, .nan => .nan
  | x, y => if jsLt x y then y else x

/-- Left-pad a digit string with zeros to length `d`. -/
def padZeros (s : String) (d : Nat) : String :=
  if s.length < d then String.mk (List.replicate (d - s.length) '0') ++ s else s

/-- Decimal rendering of a rational rounded to `d` fractional digits. -/
def ratToFixed (q : ℚ) (d : Nat) : String :=
  let n : ℤ := round (q * ((10 : ℚ) ^ d))
  let sign := if n < 0 then "-" else ""
  let m := n.natAbs
  if d = 0 then sign ++ toString m
  else sign ++ toString (m / 10 ^ d) ++ "." ++ padZeros (toString (m % 10 ^ d)) d

/-- JavaScript `x.toFixed(d)` as a string. -/
def jsToFixed (d : Nat) : JsNum → String
  | .num q => ratToFixed q d
  | .posInf => "Infinity"
  | .negInf => "-Infinity"
  | .nan => "NaN"

/-- Severity of an insight. -/
inductive Severity where
  | info
  | warning
  | critical
deriving DecidableEq, Repr

/-- Interface `Insight`. -/
structure Insight where
  message : String
  severity : Severity
  icon : String
deriving DecidableEq, Repr

/-- The statistics record passed to `generateInsights`. -/
structure InsightStats where
  currentEnergy : JsNum
  yesterdayEnergy : JsNum
  averageVoltage : JsNum
  minVoltage : JsNum
  maxVoltage : JsNum
  nightTimeLoad : JsNum
  peakPower : JsNum
  powerFactor : JsNum
deriving DecidableEq, Repr

/-- `generateInsights`: evaluates the fixed rule list in order, then
falls back to a single all-normal insight when nothing triggered. -/
def generateInsights (_deviceId : String) (data : InsightStats) : List Insight :=
  let energyDiff := jsSub data.currentEnergy data.yesterdayEnergy
  let energyDiffPercent := jsMul (jsDiv energyDiff data.yesterdayEnergy) (.num 100)
  let trendInsights : List Insight :=
    if jsGt (jsAbs energyDiffPercent) (.num 15) then
      if jsGt energyDiffPercent (.num 0) then
        [ { message := "Energy usage is " ++ jsToFixed 0 energyDiffPercent ++
              "% higher than yesterday",
            severity := .warning, icon := "📈" } ]
      else
        [ { message := "Great! Energy usage is " ++ jsToFixed 0 (jsAbs energyDiffPercent) ++
              "% lower than yesterday",
            severity := .info, icon := "📉" } ]
    else []
  let nightInsights : List Insight :=
    if jsGt data.nightTimeLoad (.num 1.5) then
      [ { message := "High night-time base load detected (2-6 AM): " ++
            jsToFixed 1 data.nightTimeLoad ++ " kW",
          severity := .info, icon := "🌙" } ]
    else []
  let lowVoltInsights : List Insight :=
    if jsLt data.minVoltage (.num 207) then
      [ { message := "Voltage dropped below safe range (" ++ jsToFixed 1 data.minVoltage ++
            "V). Check electrical connections.",
          severity := .critical, icon := "⚡" } ]
    else []
  let highVoltInsights : List Insight :=
    if jsGt data.maxVoltage (.num 253) then
      [ { message := "Voltage spike detected (" ++ jsToFixed 1 data.maxVoltage ++
            "V). Risk of equipment damage.",
          severity := .critical, icon := "⚠️" } ]
    else []
  let pfInsights : List Insight :=
    if jsLt data.powerFactor (.num 0.85) then
      [ { message := "Low power factor (" ++ jsToFixed 2 data.powerFactor ++
            "). You\x27re incurring penalty charges. Consider installing capacitors.",
          severity := .warning, icon := "💡" } ]
    else if jsGt data.powerFactor (.num 0.95) then
      [ { message := "Excellent power factor (" ++ jsToFixed 2 data.powerFactor ++
            ")! You may be eligible for incentives.",
          severity := .info, icon := "⭐" } ]
    else []
  let peakInsights : List Insight :=
    if jsGt data.peakPower (.num 5000) then
      [ { message := "High peak demand detected: " ++
            jsToFixed 1 (jsDiv data.peakPower (.num 1000)) ++
            " kW. Consider load shifting to reduce demand charges.",
          severity := .warning, icon := "📊" } ]
    else []
  let voltageRange := jsSub data.maxVoltage data.minVoltage
  let stabilityInsights : List Insight :=
    if jsGt voltageRange (.num 15) then
      [ { message := "Unstable voltage detected (±" ++ jsToFixed 1 (jsDiv voltageRange (.num 2)) ++
            "V variation). May affect sensitive equipment.",
          severity := .warning, icon := "🔌" } ]
    else []
  let insights := trendInsights ++ nightInsights ++ lowVoltInsights ++ highVoltInsights ++
    pfInsights ++ peakInsights ++ stabilityInsights
  if insights.length = 0 then
    [ { message := "All systems operating normally. Energy consumption is stable.",
        severity := .info, icon := "✅" } ]
  else insights

/-- `detectPhaseImbalance`: deviation of per-phase contributions from
their average, as a percentage of the average. -/
def detectPhaseImbalance (phase1 phase2 phase3 : JsNum) : Option Insight :=
  let average := jsDiv (jsAdd (jsAdd phase1 phase2) phase3) (.num 3)
  let maxDeviation :=
    jsMax (jsMax (jsAbs (jsSub phase1 average)) (jsAbs (jsSub phase2 average)))
      (jsAbs (jsSub phase3 average))
  let deviationPercent := jsMul (jsDiv maxDeviation average) (.num 100)
  if jsGt deviationPercent (.num 15) then
    some { message := "Phase imbalance detected: " ++ jsToFixed 0 deviationPercent ++
             "% deviation. Balance loads across phases for optimal efficiency.",
           severity := .warning, icon := "⚖️" }
  else none

/-! ### Concrete inputs used by witnesses and counterexamples -/

/-- A domestic request with a negative energy figure. -/
def reqNegEnergy : BillCalculationRequest :=
  { totalEnergy := -5, deviceId := "dev-1", connectionCategory := "domestic-3phase",
    billingPeriod := "monthly", maxDemandKVA := none, averagePowerFactor := none }

/-- A request with an unrecognized connection category. -/
def reqUnknown : BillCalculationRequest :=
  { totalEnergy := 100, deviceId := "dev-1", connectionCategory := "single-phase",
    billingPeriod := "monthly", maxDemandKVA := none, averagePowerFactor := none }

/-- A domestic request for 1 kWh. -/
def reqDom1 : BillCalculationRequest :=
  { totalEnergy := 1, deviceId := "dev-1", connectionCategory := "domestic-3phase",
    billingPeriod := "monthly", maxDemandKVA := none, averagePowerFactor := none }

/-- The bill `calculateBill` produces for `reqDom1` at reference day 0,
written out explicitly. -/
def billDom1 : BillCalculationResponse :=
  { totalAmount := 157.85, category := "domestic-3phase",
    breakdown := [{ slab := "0-30 kWh", units := 1, rate := 7.85, amount := 7.85 }],
    fixedCharges := 150, demandCharges := 0, powerFactorAdjustment := 0,
    maxDemandKVA := 0, powerFactor := 0.90,
    dailyCosts := generateDailyCosts 0 1 157.85 }

/-- The total amount `calculateBill` rounds at assembly, before that
rounding: the per-category sum of unrounded energy charge, fixed charge,
demand charge and power-factor adjustment. -/
def billUnroundedTotal (r : BillCalculationRequest) : ℚ :=
  if r.connectionCategory = "domestic-3phase" then
    (calculateDomestic3Phase r.totalEnergy).totalAmount
  else if r.connectionCategory = "general-purpose-3phase" then
    (calculateGeneralPurpose3Phase r.totalEnergy (jsOr r.maxDemandKVA 0)
      (jsOr r.averagePowerFactor 0.90)).totalAmount
  else if r.connectionCategory = "industrial-3phase" then
    (calculateIndustrial3Phase r.totalEnergy (jsOr r.maxDemandKVA 0)
      (jsOr r.averagePowerFactor 0.90)).totalAmount
  else 0

/-- A general-purpose request whose per-component rounding residues add
up past half a cent. -/
def reqGPCounter : BillCalculationRequest :=
  { totalEnergy := 100.0001, deviceId := "dev-1",
    connectionCategory := "general-purpose-3phase", billingPeriod := "monthly",
    maxDemandKVA := some 10.00001, averagePowerFactor := none }

/-- A general-purpose request with an explicitly supplied power factor of 0. -/
def reqGPZeroPF : BillCalculationRequest :=
  { totalEnergy := 100, deviceId := "dev-1",
    connectionCategory := "general-purpose-3phase", billingPeriod := "monthly",
    maxDemandKVA := some 10, averagePowerFactor := some 0 }

/-- Statistics whose prior-period energy is zero while the current
energy is positive; every other statistic is in its neutral range. -/
def statsZeroPrior : InsightStats :=
  { currentEnergy := .num 100, yesterdayEnergy := .num 0, averageVoltage := .num 230,
    minVoltage := .num 230, maxVoltage := .num 230, nightTimeLoad := .num 0,
    peakPower := .num 0, powerFactor := .num 0.9 }

/-! ### Rounding and slab-loop lemmas -/

theorem toFixed2_zero : toFixed2 0 = 0 := by
  simp [toFixed2]

theorem toFixed2_eq_self (q : ℚ) (m : ℤ) (h : q * 100 = (m : ℚ)) : toFixed2 q = q := by
  unfold toFixed2
  rw [h, round_intCast]
  field_simp
  linarith [h]

theorem toFixed2_add_left (p q : ℚ) (m : ℤ) (h : p * 100 = (m : ℚ)) :
    toFixed2 (p + q) = p + toFixed2 q := by
  unfold toFixed2
  have h1 : (p + q) * 100 = q * 100 + (m : ℚ) := by rw [← h]; ring
  rw [h1, round_add_int]
  have hp : p = (m : ℚ) / 100 := by field_simp; linarith [h]
  push_cast
  rw [hp]
  ring

theorem runSlabs_of_nonpos (l : List TariffSlab) (r : ℚ) (h : r ≤ 0) :
    runSlabs r l = ([], 0) := by
  cases l with
  | nil => simp [runSlabs]
  | cons s rest => simp [runSlabs, h]

theorem runSlabs_cons_pos_none (r : ℚ) (s : TariffSlab) (rest : List TariffSlab)
    (h : 0 < r) (hs : s.limit = none) :
    runSlabs r (s :: rest) =
      ([{ slab := s.name, units := toFixed2 r, rate := s.rate,
          amount := toFixed2 (r * s.rate) }], r * s.rate) := by
  simp [runSlabs, hs, not_le.mpr h, runSlabs_of_nonpos rest 0 le_rfl]

theorem runSlabs_cons_pos_some_le (r li : ℚ) (s : TariffSlab) (rest : List TariffSlab)
    (h : 0 < r) (hs : s.limit = some li) (hle : r ≤ li) :
    runSlabs r (s :: rest) =
      ([{ slab := s.name, units := toFixed2 r, rate := s.rate,
          amount := toFixed2 (r * s.rate) }], r * s.rate) := by
  simp [runSlabs, hs, not_le.mpr h, min_eq_left hle,
    runSlabs_of_nonpos rest 0 le_rfl]

theorem runSlabs_cons_pos_some_lt (r li : ℚ) (s : TariffSlab) (rest : List TariffSlab)
    (h : 0 < r) (hs : s.limit = some li) (hlt : li < r) :
    runSlabs r (s :: rest) =
      ({ slab := s.name, units := toFixed2 li, rate := s.rate,
         amount := toFixed2 (li * s.rate) } :: (runSlabs (r - li) rest).1,
       li * s.rate + (runSlabs (r - li) rest).2) := by
  simp [runSlabs, hs, not_le.mpr h, min_eq_right (le_of_lt hlt)]

/-- Rounding the accumulated (unrounded) energy charge of the slab loop
agrees with summing the per-entry rounded amounts, because every slab
except possibly the final partial one contributes an amount that is
already exact at 2 decimals. -/
theorem runSlabs_amount_sum (l : List TariffSlab)
    (hex : ∀ s ∈ l, ∀ li : ℚ, s.limit = some li → ∃ m : ℤ, li * s.rate * 100 = (m : ℚ)) :
    ∀ r : ℚ, toFixed2 (runSlabs r l).2 = ((runSlabs r l).1.map SlabBreakdown.amount).sum := by
  induction l with
  | nil => intro r; simp [runSlabs, toFixed2_zero]
  | cons s rest ih =>
    intro r
    rcases le_or_lt r 0 with hr | hr
    · rw [runSlabs_of_nonpos _ _ hr]; simp [toFixed2_zero]
    · cases hs : s.limit with
      | none => rw [runSlabs_cons_pos_none _ _ _ hr hs]; simp
      | some li =>
        rcases le_or_lt r li with hle | hlt
        · rw [runSlabs_cons_pos_some_le _ _ _ _ hr hs hle]; simp
        · rw [runSlabs_cons_pos_some_lt _ _ _ _ hr hs hlt]
          obtain ⟨m, hm⟩ := hex s (List.mem_cons_self s rest) li hs
          have hrec := ih (fun t ht li2 h2 => hex t (List.mem_cons_of_mem s ht) li2 h2) (r - li)
          simp only [List.map_cons, List.sum_cons]
          rw [toFixed2_add_left _ _ m hm, hrec, toFixed2_eq_self _ m hm]

/-- When the input energy is expressible at 2-decimal precision, every
unit figure stored by the slab loop is exact, so the stored units sum
back to the input exactly (the slab table must end in an unbounded
slab and have integer widths, as the domestic one does). -/
theorem runSlabs_units_sum (l : List TariffSlab)
    (hint : ∀ s ∈ l, ∀ li : ℚ, s.limit = some li → ∃ k : ℤ, li = (k : ℚ))
    (hinf : ∃ s ∈ l, s.limit = none) :
    ∀ r : ℚ, 0 ≤ r → (∃ m : ℤ, r * 100 = (m : ℚ)) →
      ((runSlabs r l).1.map SlabBreakdown.units).sum = r := by
  induction l with
  | nil => exact absurd hinf (by simp)
  | cons s rest ih =>
    rintro r hr ⟨m, hm⟩
    rcases eq_or_lt_of_le hr with heq | hpos
    · rw [runSlabs_of_nonpos _ _ (le_of_eq heq.symm)]; simp [heq.symm]
    · cases hs : s.limit with
      | none =>
        rw [runSlabs_cons_pos_none _ _ _ hpos hs]
        simp [toFixed2_eq_self r m hm]
      | some li =>
        obtain ⟨k, hk⟩ := hint s (List.mem_cons_self s rest) li hs
        have hint' : ∀ t ∈ rest, ∀ li2 : ℚ, t.limit = some li2 → ∃ k2 : ℤ, li2 = (k2 : ℚ) :=
          fun t ht li2 h2 => hint t (List.mem_cons_of_mem s ht) li2 h2
        have hinf' : ∃ t ∈ rest, t.limit = none := by
          rcases hinf with ⟨t, ht, htn⟩
          rcases List.mem_cons.mp ht with rfl | htr
          · rw [hs] at htn; cases htn
          · exact ⟨t, htr, htn⟩
        rcases le_or_lt r li with hle | hlt
        · rw [runSlabs_cons_pos_some_le _ _ _ _ hpos hs hle]
          simp [toFixed2_eq_self r m hm]
        · rw [runSlabs_cons_pos_some_lt _ _ _ _ hpos hs hlt]
          have hrm : (r - li) * 100 = ((m - k * 100 : ℤ) : ℚ) := by
            push_cast
            rw [← hm, hk]; ring
          have hrec := ih hint' hinf' (r - li) (by linarith) ⟨m - k * 100, hrm⟩
          have hliu : toFixed2 li = li := by
            refine toFixed2_eq_self li (k * 100) ?_
            push_cast
            rw [hk]
          simp only [List.map_cons, List.sum_cons, hliu, hrec]
          ring

/-- On a 2-decimal input and a slab table with positive integer widths,
every emitted breakdown entry has strictly positive stored units. -/
theorem runSlabs_units_pos (l : List TariffSlab)
    (hint : ∀ s ∈ l, ∀ li : ℚ, s.limit = some li → (∃ k : ℤ, li = (k : ℚ)) ∧ 1 ≤ li) :
    ∀ r : ℚ, (∃ m : ℤ, r * 100 = (m : ℚ)) →
      ∀ e ∈ (runSlabs r l).1, 0 < e.units := by
  induction l with
  | nil => intro r _ e he; simp [runSlabs] at he
  | cons s rest ih =>
    rintro r ⟨m, hm⟩ e he
    rcases le_or_lt r 0 with hr | hr
    · rw [runSlabs_of_nonpos _ _ hr] at he; simp at he
    · have hm0 : (0 : ℚ) < (m : ℚ) := by rw [← hm]; positivity
      have hm1 : (1 : ℤ) ≤ m := by exact_mod_cast hm0
      have hr100 : 1 / 100 ≤ r := by
        have : (1 : ℚ) ≤ m := by exact_mod_cast hm1
        nlinarith [hm]
      cases hs : s.limit with
      | none =>
        rw [runSlabs_cons_pos_none _ _ _ hr hs] at he
        simp at he
        rw [he, toFixed2_eq_self r m hm]
        exact hr
      | some li =>
        obtain ⟨⟨k, hk⟩, hli1⟩ := hint s (List.mem_cons_self s rest) li hs
        rcases le_or_lt r li with hle | hlt
        · rw [runSlabs_cons_pos_some_le _ _ _ _ hr hs hle] at he
          simp at he
          rw [he, toFixed2_eq_self r m hm]
          exact hr
        · rw [runSlabs_cons_pos_some_lt _ _ _ _ hr hs hlt] at he
          rcases List.mem_cons.mp he with rfl | htail
          · have hliu : toFixed2 li = li := by
              refine toFixed2_eq_self li (k * 100) ?_
              push_cast
              rw [hk]
            simp only [hliu]
            linarith
          · have hint' : ∀ t ∈ rest, ∀ li2 : ℚ, t.limit = some li2 →
                (∃ k2 : ℤ, li2 = (k2 : ℚ)) ∧ 1 ≤ li2 :=
              fun t ht li2 h2 => hint t (List.mem_cons_of_mem s ht) li2 h2
            have hrm : (r - li) * 100 = ((m - k * 100 : ℤ) : ℚ) := by
              push_cast
              rw [← hm, hk]; ring
            exact ih hint' (r - li) ⟨m - k * 100, hrm⟩ e htail

/-- The slab labels of the emitted breakdown are always an initial
segment of the slab-table names, in table order. -/
theorem runSlabs_labels (l : List TariffSlab) : ∀ r : ℚ,
    (runSlabs r l).1.map SlabBreakdown.slab =
      (l.map TariffSlab.name).take (runSlabs r l).1.length := by
  induction l with
  | nil => intro r; simp [runSlabs]
  | cons s rest ih =>
    intro r
    rcases le_or_lt r 0 with hr | hr
    · rw [runSlabs_of_nonpos _ _ hr]; simp
    · cases hs : s.limit with
      | none => rw [runSlabs_cons_pos_none _ _ _ hr hs]; simp
      | some li =>
        rcases le_or_lt r li with hle | hlt
        · rw [runSlabs_cons_pos_some_le _ _ _ _ hr hs hle]; simp
        · rw [runSlabs_cons_pos_some_lt _ _ _ _ hr hs hlt]
          simp [ih]

/-- Every bounded domestic slab has a 2-decimal-exact full-slab amount. -/
theorem domesticSlabs_exact : ∀ s ∈ domesticSlabs, ∀ li : ℚ,
    s.limit = some li → ∃ m : ℤ, li * s.rate * 100 = (m : ℚ) := by
  intro s hs li hli
  simp only [domesticSlabs, List.mem_cons, List.not_mem_nil, or_false] at hs
  rcases hs with rfl | rfl | rfl | rfl | rfl | rfl
  · simp only [Option.some.injEq] at hli; exact ⟨23550, by rw [← hli]; norm_num⟩
  · simp only [Option.some.injEq] at hli; exact ⟨45000, by rw [← hli]; norm_num⟩
  · simp only [Option.some.injEq] at hli; exact ⟨60000, by rw [← hli]; norm_num⟩
  · simp only [Option.some.injEq] at hli; exact ⟨90000, by rw [← hli]; norm_num⟩
  · simp only [Option.some.injEq] at hli; exact ⟨252000, by rw [← hli]; norm_num⟩
  · cases hli

/-- Every bounded domestic slab width is a positive integer. -/
theorem domesticSlabs_int_pos : ∀ s ∈ domesticSlabs, ∀ li : ℚ,
    s.limit = some li → (∃ k : ℤ, li = (k : ℚ)) ∧ 1 ≤ li := by
  intro s hs li hli
  simp only [domesticSlabs, List.mem_cons, List.not_mem_nil, or_false] at hs
  rcases hs with rfl | rfl | rfl | rfl | rfl | rfl
  · simp only [Option.some.injEq] at hli; exact ⟨⟨30, by rw [← hli]; norm_num⟩, by rw [← hli]; norm_num⟩
  · simp only [Option.some.injEq] at hli; exact ⟨⟨30, by rw [← hli]; norm_num⟩, by rw [← hli]; norm_num⟩
  · simp only [Option.some.injEq] at hli; exact ⟨⟨30, by rw [← hli]; norm_num⟩, by rw [← hli]; norm_num⟩
  · simp only [Option.some.injEq] at hli; exact ⟨⟨30, by rw [← hli]; norm_num⟩, by rw [← hli]; norm_num⟩
  · simp only [Option.some.injEq] at hli; exact ⟨⟨60, by rw [← hli]; norm_num⟩, by rw [← hli]; norm_num⟩
  · cases hli

/-- The domestic slab table ends in an unbounded slab. -/
theorem domesticSlabs_hasInf : ∃ s ∈ domesticSlabs, s.limit = none := by
  refine ⟨{ name := "181+ kWh", limit := none, rate := 50.00 }, ?_, rfl⟩
  simp [domesticSlabs]

/-- Shape of the daily-cost projection: 30 entries, consecutive day
indices ending at `today`, and one shared rounded cost. -/
theorem generateDailyCosts_spec (today : ℤ) (E A : ℚ) :
    (generateDailyCosts today E A).length = 30 ∧
    (generateDailyCosts today E A).map DailyCost.date =
      (List.range 30).map (fun i : ℕ => today - 29 + (i : ℤ)) ∧
    List.Pairwise (· < ·) ((generateDailyCosts today E A).map DailyCost.date) ∧
    ∀ e ∈ generateDailyCosts today E A, e.cost = toFixed2 (A / 30) := by
  have hmap : (generateDailyCosts today E A).map DailyCost.date =
      (List.range 30).map (fun i : ℕ => today - 29 + (i : ℤ)) := by
    simp only [generateDailyCosts, List.map_map]
    refine List.map_congr_left fun i _ => ?_
    simp only [Function.comp_apply]
    ring
  refine ⟨?_, hmap, ?_, ?_⟩
  · simp only [generateDailyCosts]
    rw [List.length_map, List.length_range]
  · rw [hmap]
    refine (List.pairwise_lt_range 30).map _ fun a b hab => ?_
    omega
  · intro e he
    simp only [generateDailyCosts, List.mem_map] at he
    obtain ⟨i, _, rfl⟩ := he
    rfl

/-- Field shape of every successfully computed bill: the rounded total
comes from the pre-rounding per-category total, the daily costs are the
30-day projection of that same pre-rounding total, and the domestic
branch fixes demand and power-factor components to zero. -/
theorem calculateBill_ok_shape (today : ℤ) (r : BillCalculationRequest)
    (b : BillCalculationResponse) (h : calculateBill today r = Except.ok b) :
    b.totalAmount = toFixed2 (billUnroundedTotal r) ∧
    b.dailyCosts = generateDailyCosts today r.totalEnergy (billUnroundedTotal r) ∧
    (r.connectionCategory = "domestic-3phase" →
      b.breakdown = (runSlabs r.totalEnergy domesticSlabs).1 ∧
      b.fixedCharges = (calculateDomestic3Phase r.totalEnergy).fixedCharge ∧
      b.demandCharges = 0 ∧ b.powerFactorAdjustment = 0) := by
  by_cases h1 : r.connectionCategory = "domestic-3phase"
  · simp only [calculateBill, h1, if_pos] at h
    have hb := Except.ok.inj h
    subst hb
    refine ⟨by simp [billUnroundedTotal, h1], by simp [billUnroundedTotal, h1], ?_⟩
    exact fun _ => ⟨rfl, rfl, rfl, rfl⟩
  · by_cases h2 : r.connectionCategory = "general-purpose-3phase"
    · simp only [calculateBill, h1, h2, if_pos, if_neg] at h
      have hb := Except.ok.inj h
      subst hb
      exact ⟨by simp [billUnroundedTotal, h1, h2], by simp [billUnroundedTotal, h1, h2],
        fun hc => absurd hc h1⟩
    · by_cases h3 : r.connectionCategory = "industrial-3phase"
      · simp only [calculateBill, h1, h2, h3, if_pos, if_neg] at h
        have hb := Except.ok.inj h
        subst hb
        exact ⟨by simp [billUnroundedTotal, h1, h2, h3],
          by simp [billUnroundedTotal, h1, h2, h3], fun hc => absurd hc h1⟩
      · simp only [calculateBill, h1, h2, h3, if_neg] at h
        cases h

/-- `calculateBill` on `reqDom1` yields exactly `billDom1`. -/
theorem billDom1_eq : calculateBill 0 reqDom1 = Except.ok billDom1 := by
  norm_num [calculateBill, reqDom1, billDom1, jsOr, calculateDomestic3Phase,
    runSlabs, domesticSlabs, toFixed2, round_eq]

/-! ### Claim theorems -/

/-- C1 (amended): `calculateBill` fails, with the message
`Invalid connection category`, exactly when the connection category is
not one of the three known values; for every known-category request it
returns a bill, with no validation of `totalEnergy` whatsoever. -/
theorem spec_C1 (today : ℤ) (r : BillCalculationRequest) :
    ((r.connectionCategory = "domestic-3phase" ∨
      r.connectionCategory = "general-purpose-3phase" ∨
      r.connectionCategory = "industrial-3phase") →
        (calculateBill today r).isOk = true) ∧
    (¬(r.connectionCategory = "domestic-3phase" ∨
       r.connectionCategory = "general-purpose-3phase" ∨
       r.connectionCategory = "industrial-3phase") →
        calculateBill today r = Except.error "Invalid connection category") := by
  constructor
  · rintro (h | h | h) <;> simp [calculateBill, h, Except.isOk, Except.toBool]
  · intro h
    push_neg at h
    obtain ⟨h1, h2, h3⟩ := h
    simp [calculateBill, h1, h2, h3]

/-- C1 counterexample: a domestic request with negative `totalEnergy`
is not rejected — no `InvalidInput` failure exists in the code — and
produces a bill whose total is the minimum fixed charge. -/
theorem spec_C1_counterexample :
    (calculateBill 0 reqNegEnergy).isOk = true ∧
    (calculateBill 0 reqNegEnergy).toOption.map BillCalculationResponse.totalAmount =
      some 150 := by
  constructor
  · norm_num [calculateBill, reqNegEnergy, Except.isOk, Except.toBool]
  · norm_num [calculateBill, reqNegEnergy, calculateDomestic3Phase, runSlabs,
      domesticSlabs, toFixed2, round_eq, Except.toOption]

/-- C1 witness at concrete inputs. -/
theorem spec_C1_witness :
    calculateBill 0 reqUnknown = Except.error "Invalid connection category" :=
  (spec_C1 0 reqUnknown).2 (by decide)

/-- C2 (amended): `totalAmount` is the 2-decimal rounding of the sum of
the UNROUNDED components (energy charge, fixed charge, demand charge,
power-factor adjustment); for the domestic category this also equals the
sum of the already-rounded bill fields, as the claim states, but for the
other two categories the independently rounded fields can disagree with
the rounded total. -/
theorem spec_C2 :
    (∀ (today : ℤ) (r : BillCalculationRequest) (b : BillCalculationResponse),
      calculateBill today r = Except.ok b →
      b.totalAmount = toFixed2 (billUnroundedTotal r)) ∧
    (∀ (today : ℤ) (r : BillCalculationRequest) (b : BillCalculationResponse),
      calculateBill today r = Except.ok b →
      r.connectionCategory = "domestic-3phase" →
      b.totalAmount = (b.breakdown.map SlabBreakdown.amount).sum + b.fixedCharges +
        b.demandCharges + b.powerFactorAdjustment) := by
  constructor
  · intro today r b h
    exact (calculateBill_ok_shape today r b h).1
  · intro today r b h hdom
    obtain ⟨h1, -, h3⟩ := calculateBill_ok_shape today r b h
    obtain ⟨hb, hf, hd, hp⟩ := h3 hdom
    rw [h1, hb, hf, hd, hp]
    simp only [billUnroundedTotal, if_pos hdom]
    obtain ⟨mF, hmF⟩ : ∃ mF : ℤ,
        (calculateDomestic3Phase r.totalEnergy).fixedCharge * 100 = (mF : ℚ) := by
      simp only [calculateDomestic3Phase]
      split_ifs
      exacts [⟨15000, by norm_num⟩, ⟨35000, by norm_num⟩, ⟨60000, by norm_num⟩,
        ⟨75000, by norm_num⟩, ⟨100000, by norm_num⟩]
    have hF : (calculateDomestic3Phase r.totalEnergy).totalAmount =
        (calculateDomestic3Phase r.totalEnergy).fixedCharge +
          (runSlabs r.totalEnergy domesticSlabs).2 := by
      simp only [calculateDomestic3Phase]
      ring
    rw [hF, toFixed2_add_left _ _ mF hmF,
      runSlabs_amount_sum domesticSlabs domesticSlabs_exact]
    ring

/-- C2 counterexample: a general-purpose bill whose rounded total
(7850.01) differs from the sum of its independently rounded component
fields (7850.00), because the three sub-cent rounding residues add past
half a cent. -/
theorem spec_C2_counterexample :
    (calculateBill 0 reqGPCounter).toOption.map
      (fun b => (b.totalAmount,
        (b.breakdown.map SlabBreakdown.amount).sum + b.fixedCharges +
          b.demandCharges + b.powerFactorAdjustment)) =
      some (7850.01, 7850) ∧
    (7850.01 : ℚ) ≠ 7850 := by
  constructor
  · have hne : ("general-purpose-3phase" : String) ≠ "domestic-3phase" := by decide
    norm_num [calculateBill, reqGPCounter, calculateGeneralPurpose3Phase, jsOr,
      toFixed2, round_eq, Except.toOption, hne]
  · norm_num

/-- C2 witness at a concrete input. -/
theorem spec_C2_witness :
    billDom1.totalAmount = (billDom1.breakdown.map SlabBreakdown.amount).sum +
      billDom1.fixedCharges + billDom1.demandCharges + billDom1.powerFactorAdjustment :=
  spec_C2.2 0 reqDom1 billDom1 billDom1_eq rfl

/-- C3 (amended): the domestic breakdown consumes the slabs in table
order (its labels are an initial segment of the slab names); for every
`totalEnergy ≥ 0` expressible at 2-decimal precision the stored
`units` fields sum to `totalEnergy` exactly and no zero-unit entry is
emitted.  (For finer inputs the stored units are rounded to 2 decimals,
which breaks both properties — see the counterexample.) -/
theorem spec_C3 :
    (∀ (E : ℚ) (m : ℤ), 0 ≤ E → E * 100 = (m : ℚ) →
      ((calculateDomestic3Phase E).breakdown.map SlabBreakdown.units).sum = E ∧
      ∀ e ∈ (calculateDomestic3Phase E).breakdown, 0 < e.units) ∧
    (∀ E : ℚ, (calculateDomestic3Phase E).breakdown.map SlabBreakdown.slab =
      (domesticSlabs.map TariffSlab.name).take
        (calculateDomestic3Phase E).breakdown.length) := by
  constructor
  · intro E m hE hm
    constructor
    · exact runSlabs_units_sum domesticSlabs
        (fun s hs li hli => ((domesticSlabs_int_pos s hs li hli).1).imp
          fun k hk => hk)
        domesticSlabs_hasInf E hE ⟨m, hm⟩
    · intro e he
      exact runSlabs_units_pos domesticSlabs domesticSlabs_int_pos E ⟨m, hm⟩ e he
  · intro E
    exact runSlabs_labels domesticSlabs E

/-- C3 counterexample: `totalEnergy = 0.001` emits one entry whose
stored `units` is 0 (rounded from 0.001), so a zero-unit entry IS
emitted and the stored units do not sum to `totalEnergy`. -/
theorem spec_C3_counterexample :
    (calculateDomestic3Phase 0.001).breakdown =
      [{ slab := "0-30 kWh", units := 0, rate := 7.85, amount := 0.01 }] ∧
    ((calculateDomestic3Phase 0.001).breakdown.map SlabBreakdown.units).sum ≠ 0.001 := by
  have h : (calculateDomestic3Phase 0.001).breakdown =
      [{ slab := "0-30 kWh", units := 0, rate := 7.85, amount := 0.01 }] := by
    norm_num [calculateDomestic3Phase, runSlabs, domesticSlabs, toFixed2, round_eq,
      min_def]
  refine ⟨h, ?_⟩
  rw [h]
  norm_num

/-- C3 witness at a concrete input. -/
theorem spec_C3_witness :
    ((calculateDomestic3Phase (30.01 : ℚ)).breakdown.map SlabBreakdown.units).sum =
      30.01 :=
  (spec_C3.1 30.01 3001 (by norm_num) (by norm_num)).1

/-- C5: the industrial power-factor adjustment is two-sided — penalty
`(energyCharge + demandCharge) * (0.85 - pf) * 1.5` below 0.85,
incentive `-(energyCharge + demandCharge) * (pf - 0.90) * 0.5` above
0.90, zero in between — with exactly one branch applying; a power
factor of 0.95 at subtotal 1000 yields -25.00, and 0.85 and 0.90 both
yield 0. -/
theorem spec_C5 :
    (∀ E D pf : ℚ,
      (pf < 0.85 → (calculateIndustrial3Phase E D pf).pfAdjustment =
        (24.50 * E + 550 * D) * (0.85 - pf) * 1.5) ∧
      (0.90 < pf → (calculateIndustrial3Phase E D pf).pfAdjustment =
        -((24.50 * E + 550 * D) * (pf - 0.90) * 0.5)) ∧
      (0.85 ≤ pf → pf ≤ 0.90 → (calculateIndustrial3Phase E D pf).pfAdjustment = 0) ∧
      ¬(pf < 0.85 ∧ 0.90 < pf) ∧
      (pf < 0.85 ∨ 0.90 < pf ∨ (0.85 ≤ pf ∧ pf ≤ 0.90))) ∧
    (∀ E D : ℚ, 24.50 * E + 550 * D = 1000 →
      (calculateIndustrial3Phase E D 0.95).pfAdjustment = -25 ∧
      toFixed2 (calculateIndustrial3Phase E D 0.95).pfAdjustment = -25) ∧
    (∀ E D : ℚ, (calculateIndustrial3Phase E D 0.85).pfAdjustment = 0 ∧
      (calculateIndustrial3Phase E D 0.90).pfAdjustment = 0) := by
  refine ⟨fun E D pf => ⟨?_, ?_, ?_, ?_, ?_⟩, fun E D h => ?_, fun E D => ⟨?_, ?_⟩⟩
  · intro h
    simp only [calculateIndustrial3Phase, if_pos h]
    ring
  · intro h
    have h1 : ¬pf < 0.85 := by linarith
    simp only [calculateIndustrial3Phase, if_neg h1, if_pos h]
    ring
  · intro h1 h2
    simp only [calculateIndustrial3Phase, if_neg (not_lt.mpr h1), if_neg (not_lt.mpr h2)]
  · rintro ⟨a, b⟩
    linarith
  · by_cases h1 : pf < 0.85
    · exact Or.inl h1
    · by_cases h2 : 0.90 < pf
      · exact Or.inr (Or.inl h2)
      · exact Or.inr (Or.inr ⟨not_lt.mp h1, not_lt.mp h2⟩)
  · have h25 : (calculateIndustrial3Phase E D 0.95).pfAdjustment = -25 := by
      have hE : E * 24.50 + D * 550 = 1000 := by linarith
      simp only [calculateIndustrial3Phase, if_neg (by norm_num : ¬(0.95 : ℚ) < 0.85),
        if_pos (by norm_num : (0.90 : ℚ) < 0.95)]
      rw [hE]
      norm_num
    exact ⟨h25, by rw [h25]; exact toFixed2_eq_self (-25) (-2500) (by norm_num)⟩
  · simp only [calculateIndustrial3Phase, if_neg (by norm_num : ¬(0.85 : ℚ) < 0.85),
      if_neg (by norm_num : ¬(0.90 : ℚ) < 0.85)]
  · simp only [calculateIndustrial3Phase, if_neg (by norm_num : ¬(0.90 : ℚ) < 0.85),
      if_neg (by norm_num : ¬(0.90 : ℚ) < 0.90)]

/-- C5 witness at concrete inputs: the penalty branch at pf = 0.5, and
the 0.95/subtotal-1000 incentive. -/
theorem spec_C5_witness :
    (calculateIndustrial3Phase 1 1 0.5).pfAdjustment =
      (24.50 * 1 + 550 * 1) * (0.85 - 0.5) * 1.5 ∧
    (calculateIndustrial3Phase 0 (20 / 11) 0.95).pfAdjustment = -25 :=
  ⟨((spec_C5.1 1 1 0.5).1 (by norm_num)),
   ((spec_C5.2.1 0 (20 / 11) (by norm_num)).1)⟩

/-- C6: the general-purpose power-factor adjustment is a penalty only:
`(energyCharge + demandCharge) * (0.85 - pf)` below 0.85 and zero from
0.85 upward, never negative on the non-negative request domain; a power
factor of 0.80 at subtotal 1000 yields 50.00. -/
theorem spec_C6 :
    (∀ E D pf : ℚ,
      (pf < 0.85 → (calculateGeneralPurpose3Phase E D pf).pfAdjustment =
        (28.50 * E + 450 * D) * (0.85 - pf)) ∧
      (0.85 ≤ pf → (calculateGeneralPurpose3Phase E D pf).pfAdjustment = 0) ∧
      (0 ≤ E → 0 ≤ D → 0 ≤ (calculateGeneralPurpose3Phase E D pf).pfAdjustment)) ∧
    (∀ E D : ℚ, (calculateGeneralPurpose3Phase E D 0.85).pfAdjustment = 0) ∧
    (∀ E D : ℚ, 28.50 * E + 450 * D = 1000 →
      (calculateGeneralPurpose3Phase E D 0.80).pfAdjustment = 50 ∧
      toFixed2 (calculateGeneralPurpose3Phase E D 0.80).pfAdjustment = 50) := by
  refine ⟨fun E D pf => ⟨?_, ?_, ?_⟩, fun E D => ?_, fun E D h => ?_⟩
  · intro h
    simp only [calculateGeneralPurpose3Phase, if_pos h]
    ring
  · intro h
    simp only [calculateGeneralPurpose3Phase, if_neg (not_lt.mpr h)]
  · intro hE hD
    simp only [calculateGeneralPurpose3Phase]
    split_ifs with h
    · have hsub : 0 ≤ E * 28.50 + D * 450 := by positivity
      have hdef : 0 ≤ (0.85 - pf) * 100 / 100 := by nlinarith
      positivity
    · exact le_refl 0
  · simp only [calculateGeneralPurpose3Phase, if_neg (by norm_num : ¬(0.85 : ℚ) < 0.85)]
  · have h50 : (calculateGeneralPurpose3Phase E D 0.80).pfAdjustment = 50 := by
      have hE : E * 28.50 + D * 450 = 1000 := by linarith
      simp only [calculateGeneralPurpose3Phase, if_pos (by norm_num : (0.80 : ℚ) < 0.85)]
      rw [hE]
      norm_num
    exact ⟨h50, by rw [h50]; exact toFixed2_eq_self 50 5000 (by norm_num)⟩

/-- C6 witness at concrete inputs: the penalty branch at pf = 0.5, the
0.85 boundary, and the 0.80/subtotal-1000 penalty. -/
theorem spec_C6_witness :
    (calculateGeneralPurpose3Phase 1 1 0.5).pfAdjustment =
      (28.50 * 1 + 450 * 1) * (0.85 - 0.5) ∧
    (calculateGeneralPurpose3Phase 0 (20 / 9) 0.80).pfAdjustment = 50 ∧
    0 ≤ (calculateGeneralPurpose3Phase 2 3 0.7).pfAdjustment :=
  ⟨((spec_C6.1 1 1 0.5).1 (by norm_num)),
   ((spec_C6.2.2 0 (20 / 9) (by norm_num)).1),
   ((spec_C6.1 2 3 0.7).2.2 (by norm_num) (by norm_num))⟩

/-- C7 (amended): every bill carries exactly 30 daily-cost entries with
strictly increasing consecutive dates forming a 30-day window ending
`today`, all sharing one cost: the 2-decimal rounding of the
PRE-rounding total divided by 30 (not `totalAmount / 30` itself, which
is generally not a 2-decimal value). -/
theorem spec_C7 (today : ℤ) (r : BillCalculationRequest) (b : BillCalculationResponse)
    (h : calculateBill today r = Except.ok b) :
    b.dailyCosts.length = 30 ∧
    b.dailyCosts.map DailyCost.date =
      (List.range 30).map (fun i : ℕ => today - 29 + (i : ℤ)) ∧
    List.Pairwise (· < ·) (b.dailyCosts.map DailyCost.date) ∧
    ∀ e ∈ b.dailyCosts, e.cost = toFixed2 (billUnroundedTotal r / 30) := by
  obtain ⟨-, hdc, -⟩ := calculateBill_ok_shape today r b h
  rw [hdc]
  exact generateDailyCosts_spec today r.totalEnergy (billUnroundedTotal r)

/-- C7 counterexample: the domestic 1 kWh bill totals 157.85 but each
daily entry costs 5.26, which is not `totalAmount / 30` (≈ 5.26166...);
the stored cost is the rounded quotient. -/
theorem spec_C7_counterexample :
    calculateBill 0 reqDom1 = Except.ok billDom1 ∧
    billDom1.totalAmount = 157.85 ∧
    ({ date := -29, cost := 5.26 } : DailyCost) ∈ billDom1.dailyCosts ∧
    (5.26 : ℚ) ≠ 157.85 / 30 := by
  refine ⟨billDom1_eq, rfl, ?_, by norm_num⟩
  simp only [billDom1, generateDailyCosts, List.mem_map]
  refine ⟨0, by simp, ?_⟩
  norm_num [toFixed2, round_eq]

/-- C7 witness at a concrete input. -/
theorem spec_C7_witness :
    billDom1.dailyCosts.length = 30 ∧
    billDom1.dailyCosts.map DailyCost.date =
      (List.range 30).map (fun i : ℕ => (0 : ℤ) - 29 + (i : ℤ)) :=
  ⟨(spec_C7 0 reqDom1 billDom1 billDom1_eq).1,
   (spec_C7 0 reqDom1 billDom1 billDom1_eq).2.1⟩

/-- C9: an explicitly supplied `averagePowerFactor` of 0 (falsy in
JavaScript) behaves exactly like an absent field, as does a supplied
`maxDemandKVA` of 0; consequently a general-purpose or industrial
request with power factor 0 gets the default 0.90 and a zero
power-factor adjustment. -/
theorem spec_C9 (today : ℤ) (r : BillCalculationRequest) :
    calculateBill today { r with averagePowerFactor := some 0 } =
      calculateBill today { r with averagePowerFactor := none } ∧
    calculateBill today { r with maxDemandKVA := some 0 } =
      calculateBill today { r with maxDemandKVA := none } ∧
    (r.averagePowerFactor = some 0 →
      (r.connectionCategory = "general-purpose-3phase" ∨
       r.connectionCategory = "industrial-3phase") →
      (calculateBill today r).toOption.map
        (fun b => (b.powerFactor, b.powerFactorAdjustment)) = some (0.90, 0)) := by
  refine ⟨?_, ?_, ?_⟩
  · simp [calculateBill, jsOr]
  · simp [calculateBill, jsOr]
  · rintro hpf (hc | hc) <;>
      simp [calculateBill, hc, hpf, jsOr, calculateGeneralPurpose3Phase,
        calculateIndustrial3Phase, (by norm_num : ¬(0.90 : ℚ) < 0.85),
        (by norm_num : ¬(0.90 : ℚ) < 0.90), toFixed2_zero, Except.toOption]

/-- C9 witness at a concrete input. -/
theorem spec_C9_witness :
    (calculateBill 0 reqGPZeroPF).toOption.map
      (fun b => (b.powerFactor, b.powerFactorAdjustment)) = some (0.90, 0) :=
  (spec_C9 0 reqGPZeroPF).2.2 rfl (Or.inl rfl)

/-- C10: on the all-zero input the computed average and maximum
deviation are both zero, and `detectPhaseImbalance` returns nothing —
the NaN produced by the unguarded 0/0 makes the threshold comparison
false rather than raising an error. -/
theorem spec_C10 :
    detectPhaseImbalance (.num 0) (.num 0) (.num 0) = none ∧
    jsDiv (jsAdd (jsAdd (.num 0) (.num 0)) (.num 0)) (.num 3) = .num 0 ∧
    jsMax (jsMax (jsAbs (jsSub (.num 0) (.num 0))) (jsAbs (jsSub (.num 0) (.num 0))))
      (jsAbs (jsSub (.num 0) (.num 0))) = .num 0 := by
  norm_num [detectPhaseImbalance, jsAdd, jsSub, jsNeg, jsDiv, jsAbs, jsMax,
    jsMul, jsLt, jsGt]

/-! ### Finite-value lemmas for the JavaScript number model -/

theorem jsAdd_num (a b : ℚ) : jsAdd (.num a) (.num b) = .num (a + b) := rfl

theorem jsSub_num (a b : ℚ) : jsSub (.num a) (.num b) = .num (a - b) := by
  show JsNum.num (a + -b) = JsNum.num (a - b)
  rw [← sub_eq_add_neg]

theorem jsMul_num (a b : ℚ) : jsMul (.num a) (.num b) = .num (a * b) := rfl

theorem jsAbs_num (a : ℚ) : jsAbs (.num a) = .num |a| := rfl

theorem jsDiv_num (a b : ℚ) (hb : b ≠ 0) : jsDiv (.num a) (.num b) = .num (a / b) := by
  simp [jsDiv, hb]

theorem jsMax_num (a b : ℚ) : jsMax (.num a) (.num b) = .num (max a b) := by
  by_cases h : a < b
  · simp [jsMax, jsLt, h, max_eq_right h.le]
  · simp [jsMax, jsLt, h, max_eq_left (not_lt.mp h)]

theorem jsGt_num (a b : ℚ) : jsGt (.num a) (.num b) = decide (b < a) := rfl

theorem isSome_ite {α : Type} (c : Prop) [Decidable c] (m : α) :
    (if c then some m else none).isSome = true ↔ c := by
  split_ifs with h <;> simp [h]

theorem mem_length_ite {α : Type} (l : List α) (x y : α) (h : x ∈ l) :
    x ∈ (if l.length = 0 then [y] else l) := by
  have hne : l.length ≠ 0 := by
    intro h0
    rw [List.length_eq_zero] at h0
    subst h0
    cases h
  rw [if_neg hne]
  exact h

theorem one_le_length_ite {α : Type} (l : List α) (y : α) :
    1 ≤ (if l.length = 0 then [y] else l).length := by
  split_ifs with h
  · simp
  · omega

theorem detectPhaseImbalance_zero :
    detectPhaseImbalance (.num 0) (.num 0) (.num 0) = none := by
  norm_num [detectPhaseImbalance, jsAdd, jsSub, jsNeg, jsDiv, jsAbs, jsMax,
    jsMul, jsLt, jsGt]

theorem jsToFixed_twenty : jsToFixed 0 (.num 20) = "20" := by
  have hround20 : round ((20 : ℚ) * (10 : ℚ) ^ (0 : ℕ)) = 20 := by norm_num [round_eq]
  simp only [jsToFixed, ratToFixed, hround20]
  decide

/-- C8: `detectPhaseImbalance` on non-negative contribution percentages
returns an insight exactly when the maximum deviation from the phase
average exceeds 15% of that average; contributions (40, 30, 30) produce
the 20%-deviation warning and (34, 33, 33) produce nothing. -/
theorem spec_C8 :
    (∀ p1 p2 p3 : ℚ, 0 ≤ p1 → 0 ≤ p2 → 0 ≤ p3 →
      ((detectPhaseImbalance (.num p1) (.num p2) (.num p3)).isSome = true ↔
        15 < max (max |p1 - (p1 + p2 + p3) / 3| |p2 - (p1 + p2 + p3) / 3|)
            |p3 - (p1 + p2 + p3) / 3| / ((p1 + p2 + p3) / 3) * 100)) ∧
    detectPhaseImbalance (.num 40) (.num 30) (.num 30) =
      some { message :=
               "Phase imbalance detected: 20% deviation. Balance loads across phases for optimal efficiency.",
             severity := .warning, icon := "⚖️" } ∧
    detectPhaseImbalance (.num 34) (.num 33) (.num 33) = none := by
  have h3ne : (3 : ℚ) ≠ 0 := by norm_num
  refine ⟨?_, ?_, ?_⟩
  · intro p1 p2 p3 h1 h2 h3
    by_cases hsum : p1 + p2 + p3 = 0
    · have hp1 : p1 = 0 := by linarith
      have hp2 : p2 = 0 := by linarith
      have hp3 : p3 = 0 := by linarith
      subst hp1
      subst hp2
      subst hp3
      rw [detectPhaseImbalance_zero]
      norm_num
    · have havg : (p1 + p2 + p3) / 3 ≠ 0 := div_ne_zero hsum h3ne
      simp only [detectPhaseImbalance, jsAdd_num, jsDiv_num _ _ h3ne, jsSub_num,
        jsAbs_num, jsMax_num, jsDiv_num _ _ havg, jsMul_num, jsGt_num,
        decide_eq_true_eq]
      exact isSome_ite _ _
  · have havg : ((40 : ℚ) + 30 + 30) / 3 ≠ 0 := by norm_num
    have hmax : max (max |(40 : ℚ) - (40 + 30 + 30) / 3| |(30 : ℚ) - (40 + 30 + 30) / 3|)
        |(30 : ℚ) - (40 + 30 + 30) / 3| / (((40 : ℚ) + 30 + 30) / 3) * 100 = 20 := by
      rw [show |(40 : ℚ) - (40 + 30 + 30) / 3| = 20 / 3 from by
            rw [abs_of_nonneg (by norm_num)]; norm_num,
          show |(30 : ℚ) - (40 + 30 + 30) / 3| = 10 / 3 from by
            rw [abs_of_neg (by norm_num)]; norm_num]
      norm_num [max_def]
    simp only [detectPhaseImbalance, jsAdd_num, jsDiv_num _ _ h3ne, jsSub_num,
      jsAbs_num, jsMax_num, jsDiv_num _ _ havg, jsMul_num, jsGt_num,
      decide_eq_true_eq]
    rw [hmax, if_pos (by norm_num : (15 : ℚ) < 20), jsToFixed_twenty]
    decide
  · have havg : ((34 : ℚ) + 33 + 33) / 3 ≠ 0 := by norm_num
    have hmax : max (max |(34 : ℚ) - (34 + 33 + 33) / 3| |(33 : ℚ) - (34 + 33 + 33) / 3|)
        |(33 : ℚ) - (34 + 33 + 33) / 3| / (((34 : ℚ) + 33 + 33) / 3) * 100 = 2 := by
      rw [show |(34 : ℚ) - (34 + 33 + 33) / 3| = 2 / 3 from by
            rw [abs_of_nonneg (by norm_num)]; norm_num,
          show |(33 : ℚ) - (34 + 33 + 33) / 3| = 1 / 3 from by
            rw [abs_of_neg (by norm_num)]; norm_num]
      norm_num [max_def]
    simp only [detectPhaseImbalance, jsAdd_num, jsDiv_num _ _ h3ne, jsSub_num,
      jsAbs_num, jsMax_num, jsDiv_num _ _ havg, jsMul_num, jsGt_num,
      decide_eq_true_eq]
    rw [hmax, if_neg (by norm_num : ¬(15 : ℚ) < 2)]

/-- C8 witness at concrete inputs. -/
theorem spec_C8_witness :
    (detectPhaseImbalance (.num 40) (.num 30) (.num 30)).isSome = true ↔
      15 < max (max |(40 : ℚ) - (40 + 30 + 30) / 3| |(30 : ℚ) - (40 + 30 + 30) / 3|)
          |(30 : ℚ) - (40 + 30 + 30) / 3| / (((40 : ℚ) + 30 + 30) / 3) * 100 :=
  spec_C8.1 40 30 30 (by norm_num) (by norm_num) (by norm_num)

/-- C4 (amended): `generateInsights` is total — it always returns at
least one insight — but the energy-trend division by the prior-period
energy is NOT guarded: a zero prior with positive current energy makes
the rule emit a warning whose percentage is infinite, rather than
short-circuiting to no insight.  (The 0/0 and 0-average cases do
degrade silently, because NaN fails every comparison.) -/
theorem spec_C4 (dev : String) (s : InsightStats) :
    1 ≤ (generateInsights dev s).length ∧
    (∀ c : ℚ, s.yesterdayEnergy = .num 0 → s.currentEnergy = .num c → 0 < c →
      ({ message := "Energy usage is Infinity% higher than yesterday",
         severity := .warning, icon := "📈" } : Insight) ∈ generateInsights dev s) := by
  constructor
  · exact one_le_length_ite _ _
  · intro c h0 hc hcpos
    have hpct : jsMul (jsDiv (jsSub s.currentEnergy s.yesterdayEnergy)
        s.yesterdayEnergy) (.num 100) = .posInf := by
      rw [h0, hc, jsSub_num, sub_zero]
      have hdivinf : jsDiv (.num c) (.num 0) = .posInf := by
        simp [jsDiv, hcpos.ne', hcpos]
      rw [hdivinf]
      norm_num [jsMul]
    simp only [generateInsights]
    rw [hpct]
    apply mem_length_ite
    apply List.mem_append_left
    apply List.mem_append_left
    apply List.mem_append_left
    apply List.mem_append_left
    apply List.mem_append_left
    apply List.mem_append_left
    decide

/-- C4 counterexample: with prior-period energy 0 and current energy
100 the trend rule emits an insight carrying the propagated infinite
percentage — there is no division guard short-circuiting to silence. -/
theorem spec_C4_counterexample :
    generateInsights "device-1" statsZeroPrior =
      [{ message := "Energy usage is Infinity% higher than yesterday",
         severity := .warning, icon := "📈" }] := by
  norm_num [generateInsights, statsZeroPrior, jsSub, jsAdd, jsNeg, jsDiv, jsMul,
    jsAbs, jsGt, jsLt, jsToFixed]
  decide

/-- C4 witness at a concrete input. -/
theorem spec_C4_witness :
    1 ≤ (generateInsights "device-1" statsZeroPrior).length ∧
    ({ message := "Energy usage is Infinity% higher than yesterday",
       severity := .warning, icon := "📈" } : Insight) ∈
      generateInsights "device-1" statsZeroPrior :=
  ⟨(spec_C4 "device-1" statsZeroPrior).1,
   (spec_C4 "device-1" statsZeroPrior).2 100 rfl rfl (by norm_num)⟩

end PowerBackend
